import Mathlib

/-!
Verification of the order-parameter normalization logic of the polymarket-trader
service (src/index.js).  The file `src/index.js` contains several concatenated
revisions of the same Express service; the `POST /bet` handler occurs in three
behaviourally distinct variants:

* `betV1` — the first variant (src/index.js lines 138-222, identical copy at
  507-591, and in the README bundle): submits the order without any validation
  of the computed size/price, and always passes `negRisk = false` to the
  trading client, never reading the market's flag.
* `betV2` — the variant at src/index.js lines 873-932: same computation, but
  `negRisk` is read from `marketInfo?.neg_risk`.
* `betV3` — the validated variant at src/index.js lines 1209-1288: `negRisk`
  comes from the venue's neg-risk endpoint, and the computed parameters are
  checked (`!finalSize || finalSize <= 0 || isNaN(roundedPrice) ||
  roundedPrice <= 0 || roundedPrice >= 1`) before any order is emitted.

Machine floats of the source are modelled as exact rationals (ℚ).  JavaScript
`NaN`/`Infinity` have no counterpart in ℚ; Lean's convention `x / 0 = 0` is
used where JS would produce `Infinity`/`NaN` — none of the properties below
evaluates the code at such a corner except through the validated variant's
rejection branch, which rejects in both readings.
-/

namespace PolymarketTrader

/-- Order side, the `Side` enum of the @polymarket/clob-client library. -/
inductive Side where
  | buy
  | sell
deriving DecidableEq

/-- A JSON value as far as the handlers inspect the optional `price` field of
the request body: absent (`undefined`), a number, or a string. -/
inductive JsVal where
  | undef
  | num (q : ℚ)
  | str (s : String)
deriving DecidableEq

/-- JavaScript truthiness test (`!x`) on the values representable by `JsVal`:
`undefined`, the number `0` and the empty string are falsy. -/
def JsVal.falsy : JsVal → Bool
  | .undef => true
  | .num q => decide (q = 0)
  | .str s => decide (s = "")

/-- Digit characters to their numeric value (helper for `parseDec`). -/
def digitsVal (l : List Char) : ℕ :=
  l.foldl (fun a c => a * 10 + (c.toNat - 48)) 0

/-- Numeric reading of the plain decimal strings this service receives
(optional sign, integer digits, optional fraction), as JS `parseFloat` /
numeric coercion would read them; `none` models `NaN` for other strings. -/
def parseDec (s : String) : Option ℚ :=
  let sgn : ℚ := if s.startsWith "-" then -1 else 1
  let body := if s.startsWith "-" then s.drop 1 else s
  match body.splitOn "." with
  | [i] =>
      if i ≠ "" ∧ i.data.all Char.isDigit then some (sgn * digitsVal i.data) else none
  | [i, f] =>
      if i ≠ "" ∧ i.data.all Char.isDigit ∧ f.data.all Char.isDigit then
        some (sgn * ((digitsVal i.data : ℚ) + (digitsVal f.data : ℚ) / 10 ^ f.length))
      else none
  | _ => none

/-- Numeric value of a `JsVal` where the handlers convert it
(`parseFloat(orderPrice)` and the coercion in `orderPrice / tickDecimal`).
`undefined` and unparsable strings give `NaN` in JS, modelled here as `0`;
the handlers only convert the `price` field after it passed the truthiness
test, and no claim evaluates them at a truthy non-numeric string. -/
def JsVal.toNum : JsVal → ℚ
  | .undef => 0
  | .num q => q
  | .str s => (parseDec s).getD 0

/-- Request body of `POST /bet` as destructured by the handlers:
`const { tokenId, side, amount, price } = req.body`.  `tokenId` and `side`
are the strings the service expects (absent = `none`), `amount` a decimal,
and `price` is kept as a raw JSON value because the handlers test it for
truthiness before converting it. -/
structure BetRequest where
  tokenId : Option String
  side : Option String
  amount : Option ℚ
  price : JsVal
deriving DecidableEq

/-- Results of the awaited market-data calls a `/bet` handler can make:
`parseFloat(await client.getMidpoint(tokenId))`, the market's
`minimum_tick_size` (absent when the lookup fails, default `'0.01'`), and the
negative-risk flag (`marketInfo?.neg_risk` / the `/neg-risk` endpoint). -/
structure MarketData where
  midpoint : ℚ
  minimumTickSize : Option ℚ
  negRisk : Bool
deriving DecidableEq

/-- Truthiness of an optional string field (absent or `''` is falsy). -/
def optStrFalsy : Option String → Bool
  | none => true
  | some s => decide (s = "")

/-- Truthiness of an optional numeric field (absent or `0` is falsy). -/
def optNumFalsy : Option ℚ → Bool
  | none => true
  | some q => decide (q = 0)

/-- Guard `if (!tokenId || !side || !amount)` of every `/bet` variant
(src/index.js line 148): true when any required field is falsy. -/
def missingRequired (r : BetRequest) : Bool :=
  optStrFalsy r.tokenId || optStrFalsy r.side || optNumFalsy r.amount

/-- ASCII uppercase of one character, as JS `toUpperCase` acts on the ASCII
strings this service receives. -/
def upChar (c : Char) : Char :=
  if 'a' ≤ c ∧ c ≤ 'z' then Char.ofNat (c.toNat - 32) else c

/-- ASCII uppercase of a string (JS `s.toUpperCase()` on ASCII input). -/
def jsToUpper (s : String) : String :=
  String.mk (s.data.map upChar)

/-- JS `Math.min` on (non-NaN) numbers. -/
def jsMin (a b : ℚ) : ℚ := if a ≤ b then a else b

/-- JS `Math.max` on (non-NaN) numbers. -/
def jsMax (a b : ℚ) : ℚ := if a ≤ b then b else a

/-- Side mapping of `/bet` (src/index.js line 154):
`side.toUpperCase() === 'BUY' ? Side.BUY : Side.SELL`. -/
def parseSide (s : String) : Side :=
  if jsToUpper s = "BUY" then .buy else .sell

/-- JS `Math.round`: round half toward positive infinity, `⌊x + 1/2⌋`. -/
def jsRound (q : ℚ) : ℤ := ⌊q + 1 / 2⌋

/-- Price resolution of `/bet` (src/index.js lines 157-165): use the supplied
`price` when truthy, otherwise derive from the midpoint with the ±0.02 offset
and the 0.99 / 0.01 clamps. -/
def resolvePrice (sideEnum : Side) (price : JsVal) (midpoint : ℚ) : ℚ :=
  if price.falsy then
    if sideEnum = .buy then jsMin (midpoint + 2 / 100) (99 / 100)
    else jsMax (midpoint - 2 / 100) (1 / 100)
  else price.toNum

/-- Tick rounding of `/bet` (src/index.js lines 188-189):
`Math.round(orderPrice / tickDecimal) * tickDecimal`. -/
def roundToTick (orderPrice tickDecimal : ℚ) : ℚ :=
  (jsRound (orderPrice / tickDecimal) : ℚ) * tickDecimal

/-- Size flooring of `/bet` (src/index.js line 194):
`Math.floor(size * 100) / 100`. -/
def floor2 (size : ℚ) : ℚ := (⌊size * 100⌋ : ℚ) / 100

/-- Working price of a `/bet` request: `orderPrice` after lines 154-165. -/
def workingPrice (r : BetRequest) (m : MarketData) : ℚ :=
  resolvePrice (parseSide (r.side.getD "")) r.price m.midpoint

/-- Raw share size (src/index.js line 168):
`parseFloat(amount) / parseFloat(orderPrice)`. -/
def rawSize (r : BetRequest) (m : MarketData) : ℚ :=
  r.amount.getD 0 / workingPrice r m

/-- Effective tick size (src/index.js lines 175-182): the market's
`minimum_tick_size` when available, else the default `'0.01'`. -/
def tickOf (m : MarketData) : ℚ := m.minimumTickSize.getD (1 / 100)

/-- Tick-rounded price of a `/bet` request (src/index.js line 189). -/
def roundedPriceOf (r : BetRequest) (m : MarketData) : ℚ :=
  roundToTick (workingPrice r m) (tickOf m)

/-- Floored final size of a `/bet` request (src/index.js lines 194 / 1257). -/
def finalSizeOf (r : BetRequest) (m : MarketData) : ℚ :=
  floor2 (rawSize r m)

/-- Arguments the handlers pass to `client.createAndPostOrder`. -/
structure PlacedOrder where
  tokenID : String
  price : ℚ
  size : ℚ
  side : Side
  tickSize : ℚ
  negRisk : Bool
deriving DecidableEq

/-- Observable outcome of one `/bet` handler run.  `missingFields` is the 400
response with the constant message `'Missing required fields: tokenId, side,
amount'`; `invalidParams` is the validated variant's 400 response
`` `Invalid order params: size=..., price=...` `` carrying the offending
values; `emitted` means `client.createAndPostOrder` was invoked. -/
inductive BetOutcome where
  | missingFields
  | invalidParams (size price : ℚ)
  | emitted (o : PlacedOrder)
deriving DecidableEq

/-- First `/bet` variant (src/index.js lines 138-222): no validation of the
computed parameters, and `negRisk` is the local `false` initial value, never
read from the market. -/
def betV1 (r : BetRequest) (m : MarketData) : BetOutcome :=
  if missingRequired r then .missingFields
  else
    .emitted
      { tokenID := r.tokenId.getD ""
        price := roundedPriceOf r m
        size := finalSizeOf r m
        side := parseSide (r.side.getD "")
        tickSize := tickOf m
        negRisk := false }

/-- Second `/bet` variant (src/index.js lines 873-932): same computation, no
validation, but `negRisk` is taken from `marketInfo?.neg_risk`. -/
def betV2 (r : BetRequest) (m : MarketData) : BetOutcome :=
  if missingRequired r then .missingFields
  else
    .emitted
      { tokenID := r.tokenId.getD ""
        price := roundedPriceOf r m
        size := finalSizeOf r m
        side := parseSide (r.side.getD "")
        tickSize := tickOf m
        negRisk := m.negRisk }

/-- Validated `/bet` variant (src/index.js lines 1209-1288): rejects with the
`Invalid order params` 400 when `!finalSize || finalSize <= 0 ||
isNaN(roundedPrice) || roundedPrice <= 0 || roundedPrice >= 1` (the `isNaN`
disjunct has no ℚ counterpart), otherwise emits; `negRisk` comes from the
venue's neg-risk data. -/
def betV3 (r : BetRequest) (m : MarketData) : BetOutcome :=
  if missingRequired r then .missingFields
  else if finalSizeOf r m = 0 ∨ finalSizeOf r m ≤ 0 ∨
      roundedPriceOf r m ≤ 0 ∨ 1 ≤ roundedPriceOf r m then
    .invalidParams (finalSizeOf r m) (roundedPriceOf r m)
  else
    .emitted
      { tokenID := r.tokenId.getD ""
        price := roundedPriceOf r m
        size := finalSizeOf r m
        side := parseSide (r.side.getD "")
        tickSize := tickOf m
        negRisk := m.negRisk }

/-! ### Shared helper lemmas -/

/-- The definition `jsMin` agrees with the order-theoretic minimum on ℚ. -/
theorem jsMin_eq (a b : ℚ) : jsMin a b = min a b := (min_def a b).symm

/-- The definition `jsMax` agrees with the order-theoretic maximum on ℚ. -/
theorem jsMax_eq (a b : ℚ) : jsMax a b = max a b := (max_def a b).symm

/-- Destructor for an emission of the validated variant: the emitted order is
the computed one and the validation guard was passed. -/
theorem betV3_emitted_cases (r : BetRequest) (m : MarketData) (o : PlacedOrder)
    (h : betV3 r m = .emitted o) :
    o = { tokenID := r.tokenId.getD "", price := roundedPriceOf r m, size := finalSizeOf r m,
          side := parseSide (r.side.getD ""), tickSize := tickOf m, negRisk := m.negRisk } ∧
      ¬(finalSizeOf r m = 0 ∨ finalSizeOf r m ≤ 0 ∨
        roundedPriceOf r m ≤ 0 ∨ 1 ≤ roundedPriceOf r m) := by
  unfold betV3 at h
  split_ifs at h with h1 h2
  injection h with h3
  exact ⟨h3.symm, h2⟩

/-- Destructor for an emission of the first variant. -/
theorem betV1_emitted_cases (r : BetRequest) (m : MarketData) (o : PlacedOrder)
    (h : betV1 r m = .emitted o) :
    o = { tokenID := r.tokenId.getD "", price := roundedPriceOf r m, size := finalSizeOf r m,
          side := parseSide (r.side.getD ""), tickSize := tickOf m, negRisk := false } := by
  unfold betV1 at h
  split_ifs at h with h1
  injection h with h3
  exact h3.symm

/-- Destructor for an emission of the second variant. -/
theorem betV2_emitted_cases (r : BetRequest) (m : MarketData) (o : PlacedOrder)
    (h : betV2 r m = .emitted o) :
    o = { tokenID := r.tokenId.getD "", price := roundedPriceOf r m, size := finalSizeOf r m,
          side := parseSide (r.side.getD ""), tickSize := tickOf m, negRisk := m.negRisk } := by
  unfold betV2 at h
  split_ifs at h with h1
  injection h with h3
  exact h3.symm

/-- The first variant always emits once the required fields are present. -/
theorem betV1_run (r : BetRequest) (m : MarketData) (h : missingRequired r = false) :
    betV1 r m = .emitted
      { tokenID := r.tokenId.getD "", price := roundedPriceOf r m, size := finalSizeOf r m,
        side := parseSide (r.side.getD ""), tickSize := tickOf m, negRisk := false } := by
  simp [betV1, h]

/-- Presence of all three required fields defeats the missing-fields guard. -/
theorem missingRequired_some (tok sid : String) (a : ℚ) (pr : JsVal)
    (htok : tok ≠ "") (hsid : sid ≠ "") (ha : a ≠ 0) :
    missingRequired ⟨some tok, some sid, some a, pr⟩ = false := by
  simp [missingRequired, optStrFalsy, optNumFalsy, htok, hsid, ha]

/-- Request/market/order triple used by several concrete evaluations: the
README example `{ tokenId, side: BUY, amount: 5, price: 0.65 }` against a
market with tick size 0.01. -/
def reqStd : BetRequest := ⟨some "t", some "BUY", some 5, .num (13 / 20)⟩

/-- Market data for the standard concrete run (midpoint 0.5, tick 0.01). -/
def mktStd : MarketData := ⟨1 / 2, some (1 / 100), false⟩

/-- Order the standard concrete run emits: price 0.65, size 7.69. -/
def ordStd : PlacedOrder := ⟨"t", 13 / 20, 769 / 100, .buy, 1 / 100, false⟩

/-- Evaluation of the validated variant on the standard concrete run. -/
theorem betV3_std : betV3 reqStd mktStd = .emitted ordStd := by
  have h1 : parseSide "BUY" = Side.buy := by decide
  have h2 : ("t" : String) ≠ "" := by decide
  have h3 : ("BUY" : String) ≠ "" := by decide
  norm_num [betV3, reqStd, mktStd, ordStd, missingRequired, optStrFalsy, optNumFalsy,
    resolvePrice, JsVal.falsy, JsVal.toNum, workingPrice, rawSize, tickOf, roundedPriceOf,
    finalSizeOf, roundToTick, jsRound, floor2, jsMin, jsMax, h1, h2, h3]

/-- Product of `floor2` with 100 is the integer `⌊x * 100⌋`: a floored size
has at most two fractional decimal digits. -/
theorem floor2_mul_100 (x : ℚ) : floor2 x * 100 = (⌊x * 100⌋ : ℚ) := by
  rw [floor2, div_mul_cancel₀]
  norm_num

/-! ### Claim C1 -/

/-- Request of the spec's rejection example: `amountUsd = 0.001`,
`limitPrice = 0.99`. -/
def c1req : BetRequest := ⟨some "t", some "BUY", some (1 / 1000), .num (99 / 100)⟩

/-- Market data for the rejection example (tick size 0.01). -/
def c1mkt : MarketData := ⟨1 / 2, some (1 / 100), false⟩

/-- Order the first `/bet` variant emits on the rejection example: the raw
size 0.001 / 0.99 floors to 0.00 and is submitted anyway. -/
def c1ord : PlacedOrder := ⟨"t", 99 / 100, 0, .buy, 1 / 100, false⟩

/-- C1 counterexample: on `amountUsd = 0.001`, `limitPrice = 0.99` the first
`/bet` variant emits an order whose size is 0 instead of failing with
`InvalidOrderParams` — an order violating `size > 0` is emitted, so the
claim is false for this normalization run. -/
theorem c1_cex : betV1 c1req c1mkt = .emitted c1ord ∧ c1ord.size = 0 := by
  have h1 : parseSide "BUY" = Side.buy := by decide
  have h2 : ("t" : String) ≠ "" := by decide
  have h3 : ("BUY" : String) ≠ "" := by decide
  norm_num [betV1, c1req, c1mkt, c1ord, missingRequired, optStrFalsy, optNumFalsy,
    resolvePrice, JsVal.falsy, JsVal.toNum, workingPrice, rawSize, tickOf, roundedPriceOf,
    finalSizeOf, roundToTick, jsRound, floor2, jsMin, jsMax, h1, h2, h3]

/-- C1 (amended to the validated `/bet` variant): every order that variant
emits satisfies `size > 0` and `0 < price < 1` — whenever the floored size is
`≤ 0` or the rounded price is `≤ 0` or `≥ 1` it answers `InvalidOrderParams`
with the offending values and emits nothing — and the rejection example
`amountUsd = 0.001`, `limitPrice = 0.99` is rejected there reporting size 0,
price 0.99.  The first variant submits without this validation (see the
counterexample). -/
theorem c1_thm :
    (∀ r m o, betV3 r m = .emitted o → 0 < o.size ∧ 0 < o.price ∧ o.price < 1)
    ∧ betV3 c1req c1mkt = .invalidParams 0 (99 / 100) := by
  constructor
  · intro r m o h
    obtain ⟨ho, hg⟩ := betV3_emitted_cases r m o h
    push_neg at hg
    subst ho
    exact ⟨hg.2.1, hg.2.2.1, hg.2.2.2⟩
  · have h1 : parseSide "BUY" = Side.buy := by decide
    have h2 : ("t" : String) ≠ "" := by decide
    have h3 : ("BUY" : String) ≠ "" := by decide
    norm_num [betV3, c1req, c1mkt, missingRequired, optStrFalsy, optNumFalsy,
      resolvePrice, JsVal.falsy, JsVal.toNum, workingPrice, rawSize, tickOf, roundedPriceOf,
      finalSizeOf, roundToTick, jsRound, floor2, jsMin, jsMax, h1, h2, h3]

/-- C1 witness: the invariant applied to the standard concrete emission. -/
theorem c1_thm_witness : 0 < ordStd.size ∧ 0 < ordStd.price ∧ ordStd.price < 1 :=
  c1_thm.1 reqStd mktStd ordStd betV3_std

/-! ### Claim C2 -/

/-- Modelled from the spec: the name of the first absent required field in
the spec's check order tokenId, side, amount — the name the spec says the
`MissingField` error reports.  Kept for comparison with the code's constant
error, which carries no field name. -/
def specFirstAbsentField (r : BetRequest) : Option String :=
  if optStrFalsy r.tokenId then some "tokenId"
  else if optStrFalsy r.side then some "side"
  else if optNumFalsy r.amount then some "amount"
  else none

/-- Request missing only `tokenId`. -/
def c2reqNoToken : BetRequest := ⟨none, some "BUY", some 5, .undef⟩

/-- Request missing only `side`. -/
def c2reqNoSide : BetRequest := ⟨some "t", none, some 5, .undef⟩

/-- C2 counterexample: two requests whose first absent field differs
(`tokenId` vs `side`) receive the *same* constant missing-fields response
(`Missing required fields: tokenId, side, amount`), so the emitted error
does not name the first absent field as the claim states. -/
theorem c2_cex :
    betV3 c2reqNoToken mktStd = .missingFields
    ∧ betV3 c2reqNoSide mktStd = .missingFields
    ∧ betV3 c2reqNoToken mktStd = betV3 c2reqNoSide mktStd
    ∧ specFirstAbsentField c2reqNoToken = some "tokenId"
    ∧ specFirstAbsentField c2reqNoSide = some "side" := by
  have h2 : ("t" : String) ≠ "" := by decide
  refine ⟨by rfl, by rfl, by rfl, by rfl, ?_⟩
  simp [specFirstAbsentField, c2reqNoSide, optStrFalsy, h2]

/-- C2 (amended): when a required field is absent (falsy) the request fails
with the single constant 400 error listing all three required field names —
not an error naming the specific absent field — and this happens before any
size or price computation: the outcome is the same for every market data. -/
theorem c2_thm (r : BetRequest) (m m' : MarketData) (h : missingRequired r = true) :
    betV3 r m = .missingFields ∧ betV3 r m = betV3 r m' := by
  constructor
  · simp [betV3, h]
  · simp [betV3, h]

/-- C2 witness: the missing-`tokenId` request fails identically under two
different market inputs. -/
theorem c2_thm_witness :
    betV3 c2reqNoToken mktStd = .missingFields
    ∧ betV3 c2reqNoToken mktStd = betV3 c2reqNoToken ⟨0, none, true⟩ :=
  c2_thm c2reqNoToken mktStd ⟨0, none, true⟩ (by rfl)

/-! ### Claim C3 -/

/-- Market data whose negative-risk flag is set. -/
def c3mkt : MarketData := ⟨1 / 2, some (1 / 100), true⟩

/-- Order the first variant emits against `c3mkt`: `negRisk` is `false`. -/
def c3ordV1 : PlacedOrder := ⟨"t", 13 / 20, 769 / 100, .buy, 1 / 100, false⟩

/-- Order the second variant emits against `c3mkt`: `negRisk` passed through. -/
def c3ordV2 : PlacedOrder := ⟨"t", 13 / 20, 769 / 100, .buy, 1 / 100, true⟩

/-- C3 counterexample: with a market whose `neg_risk` flag is true, the first
`/bet` variant still submits `negRisk = false`: the flag is not passed
through unmodified from the market metadata. -/
theorem c3_cex :
    c3mkt.negRisk = true ∧ betV1 reqStd c3mkt = .emitted c3ordV1
    ∧ c3ordV1.negRisk = false := by
  have h1 : parseSide "BUY" = Side.buy := by decide
  have h2 : ("t" : String) ≠ "" := by decide
  have h3 : ("BUY" : String) ≠ "" := by decide
  refine ⟨rfl, ?_, rfl⟩
  norm_num [betV1, reqStd, c3mkt, c3ordV1, missingRequired, optStrFalsy, optNumFalsy,
    resolvePrice, JsVal.falsy, JsVal.toNum, workingPrice, rawSize, tickOf, roundedPriceOf,
    finalSizeOf, roundToTick, jsRound, floor2, jsMin, jsMax, h1, h2, h3]

/-- C3 (amended): in every variant the emitted order's side is the enum
parsed from the intent's side; `negRisk` is passed through unmodified from
the market data by the second and validated variants, while the first
variant always submits `negRisk = false` regardless of the market. -/
theorem c3_thm (r : BetRequest) (m : MarketData) (o : PlacedOrder) :
    (betV1 r m = .emitted o → o.side = parseSide (r.side.getD "") ∧ o.negRisk = false)
    ∧ (betV2 r m = .emitted o → o.side = parseSide (r.side.getD "") ∧ o.negRisk = m.negRisk)
    ∧ (betV3 r m = .emitted o → o.side = parseSide (r.side.getD "") ∧ o.negRisk = m.negRisk) := by
  refine ⟨fun h => ?_, fun h => ?_, fun h => ?_⟩
  · have ho := betV1_emitted_cases r m o h
    subst ho
    exact ⟨rfl, rfl⟩
  · have ho := betV2_emitted_cases r m o h
    subst ho
    exact ⟨rfl, rfl⟩
  · have ho := (betV3_emitted_cases r m o h).1
    subst ho
    exact ⟨rfl, rfl⟩

/-- C3 witness: pass-through of the set flag by the second variant at the
concrete neg-risk market. -/
theorem c3_thm_witness :
    c3ordV2.side = parseSide (reqStd.side.getD "") ∧ c3ordV2.negRisk = c3mkt.negRisk :=
  (c3_thm reqStd c3mkt c3ordV2).2.1 (by
    have h1 : parseSide "BUY" = Side.buy := by decide
    have h2 : ("t" : String) ≠ "" := by decide
    have h3 : ("BUY" : String) ≠ "" := by decide
    norm_num [betV2, reqStd, c3mkt, c3ordV2, missingRequired, optStrFalsy, optNumFalsy,
      resolvePrice, JsVal.falsy, JsVal.toNum, workingPrice, rawSize, tickOf, roundedPriceOf,
      finalSizeOf, roundToTick, jsRound, floor2, jsMin, jsMax, h1, h2, h3])

/-! ### Claim C4 -/

/-- C4: without a usable limit price the working price is derived from the
midpoint as `min(mid + 0.02, 0.99)` for BUY and `max(mid - 0.02, 0.01)` for
SELL; a supplied nonzero limit price is used directly; BUY at midpoint 0.50
gives 0.52 and SELL at midpoint 0.02 clamps to 0.01. -/
theorem c4_thm (s : Side) (mid p : ℚ) (hp : p ≠ 0) :
    resolvePrice s .undef mid =
      (if s = .buy then min (mid + 2 / 100) (99 / 100) else max (mid - 2 / 100) (1 / 100))
    ∧ resolvePrice s (.num p) mid = p
    ∧ resolvePrice .buy .undef (1 / 2) = 52 / 100
    ∧ resolvePrice .sell .undef (2 / 100) = 1 / 100 := by
  have hs2 : Side.sell ≠ Side.buy := by decide
  refine ⟨?_, ?_, ?_, ?_⟩
  · by_cases hs : s = .buy <;>
      simp [resolvePrice, JsVal.falsy, hs, jsMin_eq, jsMax_eq]
  · simp [resolvePrice, JsVal.falsy, JsVal.toNum, hp]
  · norm_num [resolvePrice, JsVal.falsy, jsMin]
  · norm_num [resolvePrice, JsVal.falsy, jsMax, hs2]

/-- C4 witness: a supplied limit price 0.65 is used directly. -/
theorem c4_thm_witness : resolvePrice .buy (.num (13 / 20)) (1 / 2) = 13 / 20 :=
  (c4_thm .buy (1 / 2) (13 / 20) (by norm_num)).2.1

/-! ### Claim C5 -/

/-- Request with a valid supplied limit price 0.99. -/
def c5req : BetRequest := ⟨some "t", some "BUY", some 5, .num (99 / 100)⟩

/-- Market data with the positive tick size 0.5. -/
def c5mkt : MarketData := ⟨1 / 2, some (1 / 2), false⟩

/-- Order emitted for `c5req`/`c5mkt`: the tick-rounded price is exactly 1. -/
def c5ord : PlacedOrder := ⟨"t", 1, 505 / 100, .buy, 1 / 2, false⟩

/-- C5 counterexample: with the valid limit price 0.99 and the positive tick
size 0.5, `round(0.99 / 0.5) * 0.5 = 1`, so the emitted price is not `< 1`:
the claimed bound `0 < price < 1` does not follow for every positive tick. -/
theorem c5_cex :
    betV1 c5req c5mkt = .emitted c5ord ∧ c5ord.price = 1 ∧ ¬c5ord.price < 1 := by
  have h1 : parseSide "BUY" = Side.buy := by decide
  have h2 : ("t" : String) ≠ "" := by decide
  have h3 : ("BUY" : String) ≠ "" := by decide
  refine ⟨?_, rfl, by norm_num [c5ord]⟩
  norm_num [betV1, c5req, c5mkt, c5ord, missingRequired, optStrFalsy, optNumFalsy,
    resolvePrice, JsVal.falsy, JsVal.toNum, workingPrice, rawSize, tickOf, roundedPriceOf,
    finalSizeOf, roundToTick, jsRound, floor2, jsMin, jsMax, h1, h2, h3]

/-- C5 (amended): for a supplied limit price `0 < p < 1` and positive tick
`t`, the price the handler emits equals `round(p / t) * t` (JS `Math.round`
rounds half up, which agrees with half-away-from-zero on these positive
quotients) and is an exact integer multiple of `t`; the bound
`0 < price < 1` holds additionally whenever `t / 2 ≤ p < 1 - t / 2` — in
particular for the default tick 0.01 with any `p` in `[0.005, 0.995)` — but
not for every positive tick (see the counterexample). -/
theorem c5_thm (p t : ℚ) (hp0 : 0 < p) (hp1 : p < 1) (ht : 0 < t) :
    (∃ o, betV1 ⟨some "t", some "BUY", some 5, .num p⟩ ⟨1 / 2, some t, false⟩ = .emitted o
      ∧ o.price = roundToTick p t)
    ∧ (∃ k : ℤ, roundToTick p t = (k : ℚ) * t)
    ∧ (t / 2 ≤ p → p < 1 - t / 2 → 0 < roundToTick p t ∧ roundToTick p t < 1) := by
  refine ⟨?_, ⟨jsRound (p / t), rfl⟩, ?_⟩
  · refine ⟨_, betV1_run _ _ (missingRequired_some "t" "BUY" 5 (.num p)
      (by decide) (by decide) (by norm_num)), ?_⟩
    show roundedPriceOf _ _ = roundToTick p t
    simp [roundedPriceOf, workingPrice, resolvePrice, JsVal.falsy, JsVal.toNum,
      hp0.ne', tickOf]
  · intro hlo hhi
    have hpt : p / t * t = p := div_mul_cancel₀ p ht.ne'
    have ha : (1 : ℚ) / 2 ≤ p / t := (le_div_iff₀ ht).mpr (by linarith)
    have hb : p / t + 1 / 2 < 1 / t := by
      rw [lt_div_iff₀ ht]
      calc (p / t + 1 / 2) * t = p + t / 2 := by rw [add_mul, hpt]; ring
        _ < 1 := by linarith
    have hk1 : (1 : ℤ) ≤ jsRound (p / t) := by
      rw [jsRound]
      exact Int.le_floor.mpr (by push_cast; linarith)
    have hk2 : ((jsRound (p / t) : ℤ) : ℚ) < 1 / t := by
      have hf := Int.floor_le (p / t + 1 / 2)
      rw [jsRound]
      linarith
    constructor
    · have hkpos : (0 : ℚ) < (jsRound (p / t) : ℚ) := by
        exact_mod_cast lt_of_lt_of_le Int.zero_lt_one hk1
      exact mul_pos hkpos ht
    · have hmul : (jsRound (p / t) : ℚ) * t < (1 / t) * t := mul_lt_mul_of_pos_right hk2 ht
      rw [one_div, inv_mul_cancel₀ ht.ne'] at hmul
      exact hmul

/-- C5 witness: at tick 0.01 and limit price 0.65 the rounded price is
strictly between 0 and 1. -/
theorem c5_thm_witness :
    0 < roundToTick (13 / 20) (1 / 100) ∧ roundToTick (13 / 20) (1 / 100) < 1 :=
  (c5_thm (13 / 20) (1 / 100) (by norm_num) (by norm_num) (by norm_num)).2.2
    (by norm_num) (by norm_num)

/-! ### Claim C6 -/

/-- C6: the emitted size is the raw share size `amountUsd / workingPrice`
floored to 2 decimal digits (`floor(size * 100) / 100`), hence `size * 100`
is an integer (at most 2 fractional digits); on every successful run of the
validated variant the size is moreover positive. -/
theorem c6_thm (r : BetRequest) (m : MarketData) (o : PlacedOrder) :
    (betV1 r m = .emitted o →
      o.size = floor2 (r.amount.getD 0 / workingPrice r m)
      ∧ ∃ n : ℤ, o.size * 100 = (n : ℚ))
    ∧ (betV3 r m = .emitted o →
      o.size = floor2 (r.amount.getD 0 / workingPrice r m)
      ∧ (∃ n : ℤ, o.size * 100 = (n : ℚ)) ∧ 0 < o.size) := by
  constructor
  · intro h
    have ho := betV1_emitted_cases r m o h
    subst ho
    exact ⟨rfl, ⟨⌊rawSize r m * 100⌋, floor2_mul_100 _⟩⟩
  · intro h
    obtain ⟨ho, hg⟩ := betV3_emitted_cases r m o h
    push_neg at hg
    subst ho
    exact ⟨rfl, ⟨⌊rawSize r m * 100⌋, floor2_mul_100 _⟩, hg.2.1⟩

/-- C6 witness: the standard concrete emission has size `floor(5 / 0.65 ×
100) / 100 = 7.69`, two fractional digits, positive. -/
theorem c6_thm_witness :
    ordStd.size = floor2 (reqStd.amount.getD 0 / workingPrice reqStd mktStd)
    ∧ (∃ n : ℤ, ordStd.size * 100 = (n : ℚ)) ∧ 0 < ordStd.size :=
  (c6_thm reqStd mktStd ordStd).2 betV3_std

/-! ### Claim C7 -/

/-- C7: `amountUsd = 5`, `limitPrice = 0.65`, `tickSize = 0.01` normalizes to
price 0.65 and size `floor(5 / 0.65 × 100) / 100 = 7.69`, and the validated
variant emits exactly that order. -/
theorem c7_thm :
    betV3 reqStd mktStd = .emitted ordStd
    ∧ ordStd.price = 65 / 100 ∧ ordStd.size = 769 / 100 :=
  ⟨betV3_std, by norm_num [ordStd], rfl⟩

/-! ### Claim C8 -/

/-- C8: normalization is a deterministic function of the request and the
market data — identical inputs give identical outcomes in every handler
variant.  The embedding receives every awaited I/O result (`midpoint`,
`minimum_tick_size`, `neg_risk`) as an explicit input, and the handlers read
no other state (the order store is untouched by `/bet`). -/
theorem c8_thm (r r' : BetRequest) (m m' : MarketData) (hr : r = r') (hm : m = m') :
    betV1 r m = betV1 r' m' ∧ betV2 r m = betV2 r' m' ∧ betV3 r m = betV3 r' m' := by
  subst hr
  subst hm
  exact ⟨rfl, rfl, rfl⟩

/-- C8 witness: two identical standard runs coincide. -/
theorem c8_thm_witness :
    betV1 reqStd mktStd = betV1 reqStd mktStd
    ∧ betV2 reqStd mktStd = betV2 reqStd mktStd
    ∧ betV3 reqStd mktStd = betV3 reqStd mktStd :=
  c8_thm reqStd reqStd mktStd mktStd rfl rfl

/-! ### Claim C9 -/

/-- Order emitted when the supplied price is falsy and the midpoint is 0.5:
the derived working price 0.52 is used (size `floor(5 / 0.52 × 100) / 100 =
9.61`). -/
def c9ord : PlacedOrder := ⟨"t", 52 / 100, 961 / 100, .buy, 1 / 100, false⟩

/-- C9: a supplied but falsy `price` — the number 0 or the empty string — is
treated exactly like an absent one: the working price is derived from the
midpoint with the BUY/SELL offset and clamps, and the request is not
rejected.  Concretely, BUY with `price = 0` (or `price = ''`) and midpoint
0.5 is emitted by the validated variant at the derived price 0.52. -/
theorem c9_thm :
    (∀ (s : Side) (mid : ℚ),
      resolvePrice s (.num 0) mid = resolvePrice s .undef mid
      ∧ resolvePrice s (.str "") mid = resolvePrice s .undef mid)
    ∧ betV3 ⟨some "t", some "BUY", some 5, .num 0⟩ mktStd = .emitted c9ord
    ∧ betV3 ⟨some "t", some "BUY", some 5, .str ""⟩ mktStd = .emitted c9ord := by
  have h1 : parseSide "BUY" = Side.buy := by decide
  have h2 : ("t" : String) ≠ "" := by decide
  have h3 : ("BUY" : String) ≠ "" := by decide
  refine ⟨fun s mid => ⟨rfl, rfl⟩, ?_, ?_⟩ <;>
    norm_num [betV3, c9ord, mktStd, missingRequired, optStrFalsy, optNumFalsy,
      resolvePrice, JsVal.falsy, JsVal.toNum, workingPrice, rawSize, tickOf, roundedPriceOf,
      finalSizeOf, roundToTick, jsRound, floor2, jsMin, jsMax, h1, h2, h3]

/-! ### Claim C10 -/

/-- Request whose side is the non-BUY string `HOLD`. -/
def c10req : BetRequest := ⟨some "t", some "HOLD", some 5, .undef⟩

/-- C10: `/bet` side parsing is case-insensitive and total — a side whose
ASCII uppercase equals `BUY` maps to BUY and every other string maps to SELL
(`HOLD` gives SELL, `buy` gives BUY); no side value is rejected as invalid:
every request passing the presence check reaches emission in the first
variant, carrying the parsed side. -/
theorem c10_thm :
    (∀ s : String, jsToUpper s = "BUY" → parseSide s = .buy)
    ∧ (∀ s : String, jsToUpper s ≠ "BUY" → parseSide s = .sell)
    ∧ parseSide "HOLD" = .sell ∧ parseSide "buy" = .buy
    ∧ (∀ r m, missingRequired r = false →
        ∃ o, betV1 r m = .emitted o ∧ o.side = parseSide (r.side.getD "")) := by
  refine ⟨?_, ?_, by decide, by decide, ?_⟩
  · intro s hs
    simp [parseSide, hs]
  · intro s hs
    simp [parseSide, hs]
  · intro r m h
    exact ⟨_, betV1_run r m h, rfl⟩

/-- C10 witness: the `HOLD` request is not rejected and yields a SELL order
in the first variant. -/
theorem c10_thm_witness :
    ∃ o, betV1 c10req mktStd = .emitted o ∧ o.side = parseSide (c10req.side.getD "") :=
  c10_thm.2.2.2.2 c10req mktStd
    (missingRequired_some "t" "HOLD" 5 .undef (by decide) (by decide) (by norm_num))

end PolymarketTrader
